import Mathlib

/-!
Shallow embedding of the workflow execution engine
(`api/services/workflow/executor.go` and `types.go`).

Go's `map[string]interface{}` values are modelled by the dynamic `Value`
type; Go `float64` is modelled by `Rat` (the claims only ever compare or
copy numeric values, never exercise binary rounding); Go `int` is a
distinct dynamic tag, as in Go's type switches.  The external weather
lookup (`fetchWeather`) is an explicit collaborator parameter, and the
two `time.Now()` renderings used by the executor are packaged in a
`Clock` parameter.  The executor's `for` loop can diverge on cyclic
graphs, so `execLoop` takes fuel and returns `none` when it runs out.
-/

/-- A dynamically typed value (`interface{}`) as produced by JSON decoding
or by the node behaviors: string, float64, int, bool, slice, or map. -/
inductive Value where
  | vstr  : String → Value
  | vnum  : Rat → Value
  | vint  : Int → Value
  | vbool : Bool → Value
  | vlist : List Value → Value
  | vmap  : List (String × Value) → Value

/-- The variable environment / any `map[string]interface{}`, as an
association list.  Only `lookupVar`/`setVar` observe it, matching Go map
semantics (no observable iteration order at the sites the claims touch). -/
def Env : Type := List (String × Value)

/-- Go map read `m[k]` (second result of the comma-ok form is `isSome`). -/
def lookupVar : List (String × Value) → String → Option Value
  | [], _ => none
  | (k, v) :: rest, key => if k = key then some v else lookupVar rest key

/-- Go map write `m[k] = v`: overwrite in place, else append. -/
def setVar : List (String × Value) → String → Value → List (String × Value)
  | [], key, v => [(key, v)]
  | (k, w) :: rest, key, v =>
    if k = key then (key, v) :: rest else (k, w) :: setVar rest key v

/-- Go type assertion `x.(string)`. -/
def asStr : Option Value → Option String
  | some (Value.vstr s) => some s
  | _ => none

/-- Go type assertion `x.(float64)`. -/
def asNum : Option Value → Option Rat
  | some (Value.vnum q) => some q
  | _ => none

/-- Go type assertion `x.(int)`. -/
def asInt : Option Value → Option Int
  | some (Value.vint n) => some n
  | _ => none

/-- Go type assertion `x.(bool)`. -/
def asBool : Option Value → Option Bool
  | some (Value.vbool b) => some b
  | _ => none

/-- `NodeData` from types.go (label, description, metadata bag). -/
structure NodeData where
  label : String
  description : String
  metadata : List (String × Value)

/-- `Node` from types.go (position is irrelevant to execution and omitted). -/
structure Node where
  id : String
  type : String
  data : NodeData

/-- `Edge` from types.go, restricted to the fields the executor reads. -/
structure Edge where
  source : String
  target : String
  sourceHandle : String

/-- `WorkflowGraph` from types.go. -/
structure WorkflowGraph where
  id : String
  nodes : List Node
  edges : List Edge

/-- `Workflow` from types.go, restricted to the field the executor reads. -/
structure Workflow where
  definition : WorkflowGraph

/-- `ExecutionStep` from types.go.  `output = none` models the absent
(`omitempty`) output; `error = ""` models the Go zero string. -/
structure ExecutionStep where
  nodeId : String
  type : String
  label : String
  description : String
  status : String
  output : Option (List (String × Value))
  error : String

/-- `ExecutionResponse` from types.go. -/
structure ExecutionResponse where
  executedAt : String
  status : String
  steps : List ExecutionStep

/-- The two `time.Now()` renderings the executor uses: RFC3339
(`ExecutedAt`, the email draft timestamp) and the compact
`"20060102150405"` form (the message id suffix). -/
structure Clock where
  rfc3339 : String
  compact : String

/-- The external lookup collaborator (`fetchWeather`): coordinates to a
numeric reading, or an error (non-success response / timeout). -/
def Lookup : Type := Rat → Rat → Except String Rat

/-- Approximation of Go's `%.1f` rendering of a float (round to one
decimal digit).  No claim observes this string's exact content. -/
def fmt1 (q : Rat) : String :=
  let scaled : Int := Int.fdiv (20 * q.num + (q.den : Int)) (2 * (q.den : Int))
  let sign := if scaled < 0 then "-" else ""
  let a := scaled.natAbs
  sign ++ toString (a / 10) ++ "." ++ toString (a % 10)

/-- The operator switch in `processConditionNode` (default branch mirrors
the Go `default:` case, `temperature > threshold`). -/
def applyOp (op : String) (temperature threshold : Rat) : Bool :=
  if op = "greater_than" then decide (temperature > threshold)
  else if op = "less_than" then decide (temperature < threshold)
  else if op = "equals" then decide (temperature = threshold)
  else if op = "greater_than_or_equal" then decide (temperature ≥ threshold)
  else if op = "less_than_or_equal" then decide (temperature ≤ threshold)
  else decide (temperature > threshold)

/-- The threshold read in `processConditionNode`: a `float64`, or an
`int` coerced to float. -/
def coerceThreshold (v : Option Value) : Option Rat :=
  match asNum v with
  | some th => some th
  | none => (asInt v).map (fun n => (n : Rat))

/-- The operator read in `processConditionNode`: a string, defaulting to
`"greater_than"` when absent or not a string. -/
def opOf (vars : Env) : String :=
  (asStr (lookupVar vars "operator")).getD "greater_than"

/-- The `message` output field of `processConditionNode`. -/
def conditionMessage (temperature : Rat) (operator : String) (threshold : Rat)
    (conditionMet : Bool) : String :=
  "Temperature " ++ fmt1 temperature ++ "°C " ++ operator ++ " " ++
    fmt1 threshold ++ "°C - condition " ++
    (if conditionMet then "met" else "not met")

/-- `processFormNode`'s loop over `inputFields`: non-string entries are
skipped, a missing variable aborts with an error, otherwise the value is
copied into the output map. -/
def collectFormFields (vars : Env) : List Value → List (String × Value) →
    Except String (List (String × Value))
  | [], out => Except.ok out
  | f :: rest, out =>
    match f with
    | Value.vstr fieldName =>
      match lookupVar vars fieldName with
      | some v => collectFormFields vars rest (setVar out fieldName v)
      | none => Except.error ("missing required input field: " ++ fieldName)
    | _ => collectFormFields vars rest out

/-- `processFormNode`: copy each declared input field from the variables
into the step output. -/
def processFormNode (node : Node) (vars : Env) :
    Except String (List (String × Value)) :=
  match lookupVar node.data.metadata "inputFields" with
  | some (Value.vlist fields) => collectFormFields vars fields []
  | _ => Except.error "invalid inputFields in form node metadata"

/-- The option-scanning loop of `getCityCoordinates`: first option that
is a map whose `city` equals the requested city and whose `lat`/`lon`
are floats wins; otherwise the scan continues; no match gives (0,0). -/
def findCityInOptions (city : String) : List Value → Rat × Rat
  | [] => (0, 0)
  | opt :: rest =>
    match opt with
    | Value.vmap cityData =>
      match asStr (lookupVar cityData "city") with
      | some cityName =>
        if cityName = city then
          match asNum (lookupVar cityData "lat"), asNum (lookupVar cityData "lon") with
          | some lat, some lon => (lat, lon)
          | _, _ => findCityInOptions city rest
        else findCityInOptions city rest
      | none => findCityInOptions city rest
    | _ => findCityInOptions city rest

/-- `getCityCoordinates`: resolve a city name through the node's
`options` metadata; (0,0) is the not-found sentinel. -/
def getCityCoordinates (node : Node) (city : String) : Rat × Rat :=
  match lookupVar node.data.metadata "options" with
  | some (Value.vlist options) => findCityInOptions city options
  | _ => (0, 0)

/-- `processIntegrationNode`: read `city`, resolve coordinates, call the
lookup collaborator, then write `temperature` into the variables and
record `{temperature, location}`.  Returns the output and the updated
variables map (the Go code mutates `vars` in place). -/
def processIntegrationNode (lk : Lookup) (node : Node) (vars : Env) :
    Except String (List (String × Value) × Env) :=
  match asStr (lookupVar vars "city") with
  | none => Except.error "city not found in variables"
  | some city =>
    let c := getCityCoordinates node city
    if c.1 = 0 ∧ c.2 = 0 then
      Except.error ("coordinates not found for city: " ++ city)
    else
      match lk c.1 c.2 with
      | Except.error e => Except.error ("failed to fetch weather data: " ++ e)
      | Except.ok temperature =>
        Except.ok
          ([("temperature", Value.vnum temperature),
            ("location", Value.vstr city)],
           setVar vars "temperature" (Value.vnum temperature))

/-- `processConditionNode`: read `temperature` (float) and `threshold`
(float, or int coerced), default the operator, compute the comparison,
write `conditionMet` into the variables and record the output bag.
Returns the output and the updated variables map. -/
def processConditionNode (vars : Env) :
    Except String (List (String × Value) × Env) :=
  match asNum (lookupVar vars "temperature") with
  | none => Except.error "temperature not found in variables"
  | some temperature =>
    match coerceThreshold (lookupVar vars "threshold") with
    | none => Except.error "threshold not found in variables"
    | some threshold =>
      let operator := opOf vars
      let conditionMet := applyOp operator temperature threshold
      Except.ok
        ([("conditionMet", Value.vbool conditionMet),
          ("threshold", Value.vnum threshold),
          ("operator", Value.vstr operator),
          ("actualValue", Value.vnum temperature),
          ("message",
            Value.vstr (conditionMessage temperature operator threshold conditionMet))],
         setVar vars "conditionMet" (Value.vbool conditionMet))

/-- `processEmailNode`: when `conditionMet` is absent, non-bool or
`false`, succeed with the no-email output; otherwise require `city`,
`temperature` and `email` and compose the draft.  Never writes to the
variables map. -/
def processEmailNode (clock : Clock) (vars : Env) :
    Except String (List (String × Value)) :=
  match asBool (lookupVar vars "conditionMet") with
  | some true =>
    match asStr (lookupVar vars "city") with
    | none => Except.error "city not found in variables"
    | some city =>
      match asNum (lookupVar vars "temperature") with
      | none => Except.error "temperature not found in variables"
      | some temperature =>
        match asStr (lookupVar vars "email") with
        | none => Except.error "email not found in variables"
        | some email =>
          Except.ok
            [("emailDraft", Value.vmap
               [("to", Value.vstr email),
                ("from", Value.vstr "weather-alerts@example.com"),
                ("subject", Value.vstr "Weather Alert"),
                ("body", Value.vstr ("Weather alert for " ++ city ++
                   "! Temperature is " ++ fmt1 temperature ++ "°C!")),
                ("timestamp", Value.vstr clock.rfc3339)]),
             ("deliveryStatus", Value.vstr "sent"),
             ("messageId", Value.vstr ("msg_" ++ clock.compact)),
             ("emailSent", Value.vbool true)]
  | _ =>
    Except.ok
      [("emailSent", Value.vbool false),
       ("message", Value.vstr "Condition not met, no email sent")]

/-- `findNodeByType`: first node (in declared order) of the given type. -/
def findNodeByType : List Node → String → Option Node
  | [], _ => none
  | n :: rest, t => if n.type = t then some n else findNodeByType rest t

/-- The `nodeMap` build followed by a lookup: Go builds the map by
iterating the slice (later duplicates overwrite earlier ones), so the
last node with a matching id wins. -/
def nodeMapLookup (nodes : List Node) (nid : String) : Option Node :=
  nodes.foldl (fun acc n => if n.id = nid then some n else acc) none

/-- `findNextNodeID`: scan the edges in declared order; an edge from the
current node with an empty `sourceHandle` matches unconditionally; a
non-empty handle matches only when `conditionMet` is a present boolean
agreeing with the handle (`"true"`/`"false"`); `""` signals no next. -/
def findNextNodeID : List Edge → String → Env → String
  | [], _, _ => ""
  | e :: rest, currentNodeID, vars =>
    if e.source = currentNodeID then
      if e.sourceHandle ≠ "" then
        match asBool (lookupVar vars "conditionMet") with
        | some conditionMet =>
          if (e.sourceHandle = "true" && conditionMet) ||
             (e.sourceHandle = "false" && !conditionMet) then e.target
          else findNextNodeID rest currentNodeID vars
        | none => findNextNodeID rest currentNodeID vars
      else e.target
    else findNextNodeID rest currentNodeID vars

/-- One iteration's step construction and dispatch (the `switch` on the
node type inside `Execute`'s loop).  Returns the recorded step and the
state of the shared variables map afterwards. -/
def runNode (lk : Lookup) (clock : Clock) (current : Node) (vars : Env) :
    ExecutionStep × Env :=
  let base : ExecutionStep :=
    { nodeId := current.id, type := current.type, label := current.data.label,
      description := current.data.description, status := "completed",
      output := none, error := "" }
  if current.type = "start" then (base, vars)
  else if current.type = "form" then
    match processFormNode current vars with
    | Except.ok out => ({ base with output := some out }, vars)
    | Except.error e => ({ base with status := "failed", error := e }, vars)
  else if current.type = "integration" then
    match processIntegrationNode lk current vars with
    | Except.ok r => ({ base with output := some r.1 }, r.2)
    | Except.error e => ({ base with status := "failed", error := e }, vars)
  else if current.type = "condition" then
    match processConditionNode vars with
    | Except.ok r => ({ base with output := some r.1 }, r.2)
    | Except.error e => ({ base with status := "failed", error := e }, vars)
  else if current.type = "email" then
    match processEmailNode clock vars with
    | Except.ok out => ({ base with output := some out }, vars)
    | Except.error e => ({ base with status := "failed", error := e }, vars)
  else if current.type = "end" then (base, vars)
  else
    ({ base with status := "failed", error := "Unknown node type: " ++ current.type }, vars)

/-- The executor's `for current != nil` loop, fuelled.  `none` means the
fuel ran out (the Go loop would still be running).  Returns the response
together with the final state of the caller's variables map, which the
Go code shares with the caller by reference. -/
def execLoop (lk : Lookup) (clock : Clock) (wf : Workflow) :
    Nat → Node → Env → List ExecutionStep → Option (ExecutionResponse × Env)
  | 0, _, _, _ => none
  | fuel + 1, current, vars, steps =>
    let r := runNode lk clock current vars
    let steps' := steps ++ [r.1]
    if r.1.status = "failed" then
      some ({ executedAt := clock.rfc3339, status := "failed", steps := steps' }, r.2)
    else
      let nextID := findNextNodeID wf.definition.edges current.id r.2
      if nextID = "" then
        some ({ executedAt := clock.rfc3339, status := "completed", steps := steps' }, r.2)
      else
        match nodeMapLookup wf.definition.nodes nextID with
        | none =>
          some ({ executedAt := clock.rfc3339, status := "completed", steps := steps' }, r.2)
        | some next => execLoop lk clock wf fuel next r.2 steps'

/-- `Execute`: locate the start node (synthetic system failure when
absent), then walk the graph.  The second component of the result is the
final state of the caller-supplied inputs map, which the Go code passes
by reference into every node behavior. -/
def Execute (lk : Lookup) (clock : Clock) (fuel : Nat) (wf : Workflow)
    (inputs : Env) : Option (ExecutionResponse × Env) :=
  match findNodeByType wf.definition.nodes "start" with
  | none =>
    some ({ executedAt := clock.rfc3339, status := "failed",
            steps := [{ nodeId := "system", type := "system",
                        label := "System Error", description := "",
                        status := "failed", output := none,
                        error := "No start node found in workflow" }] },
          inputs)
  | some start => execLoop lk clock wf fuel start inputs []

/-! ### Basic lemmas about the environment and graph lookups -/

theorem lookupVar_setVar (vars : List (String × Value)) (k : String) (v : Value)
    (key : String) :
    lookupVar (setVar vars k v) key = if key = k then some v else lookupVar vars key := by
  induction vars with
  | nil =>
    by_cases h : key = k
    · subst h; simp [setVar, lookupVar]
    · have h' : ¬ k = key := fun hk => h hk.symm
      simp [setVar, lookupVar, h, h']
  | cons p rest ih =>
    obtain ⟨k', v'⟩ := p
    by_cases h1 : k' = k
    · subst h1
      by_cases h2 : k' = key
      · subst h2; simp [setVar, lookupVar]
      · have h2' : ¬ key = k' := fun hk => h2 hk.symm
        simp [setVar, lookupVar, h2, h2']
    · by_cases h2 : k' = key
      · subst h2
        simp [setVar, lookupVar, h1, fun hk : k' = k => h1 hk]
      · simp [setVar, lookupVar, h1, h2, ih]

theorem findNodeByType_eq_none_iff (nodes : List Node) (t : String) :
    findNodeByType nodes t = none ↔ ∀ n ∈ nodes, n.type ≠ t := by
  induction nodes with
  | nil => simp [findNodeByType]
  | cons n rest ih =>
    by_cases h : n.type = t <;> simp [findNodeByType, h, ih]

theorem runNode_status_cases (lk : Lookup) (clock : Clock) (cur : Node) (vars : Env) :
    (runNode lk clock cur vars).1.status = "completed" ∨
      (runNode lk clock cur vars).1.status = "failed" := by
  simp only [runNode]
  split_ifs
  · left; rfl
  · rcases processFormNode cur vars with e | out <;> simp
  · rcases processIntegrationNode lk cur vars with e | r <;> simp
  · rcases processConditionNode vars with e | r <;> simp
  · rcases processEmailNode clock vars with e | out <;> simp
  · left; rfl
  · right; rfl

/-! ### The trace/status invariant of the walk (claim C1) -/

theorem execLoop_trace (lk : Lookup) (clock : Clock) (wf : Workflow) :
    ∀ (fuel : Nat) (cur : Node) (vars : Env) (steps : List ExecutionStep)
      (resp : ExecutionResponse) (env : Env),
      (∀ s ∈ steps, s.status = "completed") →
      execLoop lk clock wf fuel cur vars steps = some (resp, env) →
      ((resp.status = "completed" ↔ ∀ s ∈ resp.steps, s.status = "completed") ∧
        ∀ s ∈ resp.steps.dropLast, s.status = "completed") := by
  intro fuel
  induction fuel with
  | zero =>
    intro cur vars steps resp env _ h
    exact absurd h (by simp [execLoop])
  | succ fuel ih =>
    intro cur vars steps resp env hsteps h
    simp only [execLoop] at h
    by_cases hf : (runNode lk clock cur vars).1.status = "failed"
    · rw [if_pos hf] at h
      simp only [Option.some.injEq, Prod.mk.injEq] at h
      obtain ⟨hresp, henv⟩ := h
      subst hresp
      refine ⟨iff_of_false (by simp) ?_, ?_⟩
      · intro hall
        have hlast := hall (runNode lk clock cur vars).1 (by simp)
        rw [hf] at hlast
        exact absurd hlast (by simp)
      · simpa [List.dropLast_concat] using hsteps
    · rw [if_neg hf] at h
      have hc : (runNode lk clock cur vars).1.status = "completed" :=
        (runNode_status_cases lk clock cur vars).resolve_right hf
      have hsteps' : ∀ s ∈ steps ++ [(runNode lk clock cur vars).1], s.status = "completed" := by
        intro s hs
        rcases List.mem_append.mp hs with hs | hs
        · exact hsteps s hs
        · rw [List.mem_singleton.mp hs]; exact hc
      by_cases hn : findNextNodeID wf.definition.edges cur.id (runNode lk clock cur vars).2 = ""
      · rw [if_pos hn] at h
        simp only [Option.some.injEq, Prod.mk.injEq] at h
        obtain ⟨hresp, henv⟩ := h
        subst hresp
        refine ⟨iff_of_true rfl hsteps', ?_⟩
        · simpa [List.dropLast_concat] using hsteps
      · rw [if_neg hn] at h
        cases hlk : nodeMapLookup wf.definition.nodes
            (findNextNodeID wf.definition.edges cur.id (runNode lk clock cur vars).2) with
        | none =>
          rw [hlk] at h
          simp only [Option.some.injEq, Prod.mk.injEq] at h
          obtain ⟨hresp, henv⟩ := h
          subst hresp
          refine ⟨iff_of_true rfl hsteps', ?_⟩
          · simpa [List.dropLast_concat] using hsteps
        | some next =>
          rw [hlk] at h
          exact ih next _ _ resp env hsteps' h

/-- C1: for every workflow graph containing a start node and every initial
input map, a terminating `Execute` run returns overall status `"completed"`
iff every step of the returned trace has status `"completed"`; moreover
every step except possibly the last is `"completed"`, so when a step fails
it is the last element of the trace and nothing follows it (the walk stops
immediately). -/
theorem C1_status_iff_trace (lk : Lookup) (clock : Clock) (fuel : Nat)
    (wf : Workflow) (inputs : Env) (resp : ExecutionResponse) (env : Env)
    (hstart : ∃ n ∈ wf.definition.nodes, n.type = "start")
    (hrun : Execute lk clock fuel wf inputs = some (resp, env)) :
    (resp.status = "completed" ↔ ∀ s ∈ resp.steps, s.status = "completed") ∧
      ∀ s ∈ resp.steps.dropLast, s.status = "completed" := by
  rw [Execute] at hrun
  cases hfind : findNodeByType wf.definition.nodes "start" with
  | none =>
    obtain ⟨n, hn, ht⟩ := hstart
    exact absurd ht ((findNodeByType_eq_none_iff _ _).mp hfind n hn)
  | some s =>
    rw [hfind] at hrun
    exact execLoop_trace lk clock wf fuel s inputs [] resp env (by simp) hrun

/-! ### Claim C5: missing start node -/

/-- C5: for every workflow graph with no node of type `start` and every
initial input map, `Execute` returns overall status `"failed"` with
exactly one synthetic step (node id `"system"`, type `"system"`, error
`"No start node found in workflow"`) and performs no further processing
(the inputs map is returned untouched). -/
theorem C5_no_start_node (lk : Lookup) (clock : Clock) (fuel : Nat)
    (wf : Workflow) (inputs : Env)
    (h : ∀ n ∈ wf.definition.nodes, n.type ≠ "start") :
    Execute lk clock fuel wf inputs =
      some ({ executedAt := clock.rfc3339, status := "failed",
              steps := [{ nodeId := "system", type := "system",
                          label := "System Error", description := "",
                          status := "failed", output := none,
                          error := "No start node found in workflow" }] },
            inputs) := by
  rw [Execute, (findNodeByType_eq_none_iff _ _).mpr h]

/-! ### Claim C9: broken edge ends the walk as completed -/

/-- C9: when a step completes, edge resolution yields a non-empty next
node id, and that id is absent from the node index, the walk terminates
at that point with overall status `"completed"` and the trace built so
far — a broken edge is end-of-workflow, not an error. -/
theorem C9_broken_edge_completes (lk : Lookup) (clock : Clock) (wf : Workflow)
    (fuel : Nat) (cur : Node) (vars : Env) (steps : List ExecutionStep)
    (h1 : (runNode lk clock cur vars).1.status ≠ "failed")
    (h2 : findNextNodeID wf.definition.edges cur.id (runNode lk clock cur vars).2 ≠ "")
    (h3 : nodeMapLookup wf.definition.nodes
        (findNextNodeID wf.definition.edges cur.id (runNode lk clock cur vars).2) = none) :
    execLoop lk clock wf (fuel + 1) cur vars steps =
      some ({ executedAt := clock.rfc3339, status := "completed",
              steps := steps ++ [(runNode lk clock cur vars).1] },
            (runNode lk clock cur vars).2) := by
  simp only [execLoop]
  rw [if_neg h1, if_neg h2, h3]

/-! ### Claim C2: edge resolution agrees with the spec's description -/

/-- Spec-side definition (from §4.1 "Edge resolution", for comparison
against `findNextNodeID`): an edge matches when its source is the current
node id and its branch tag is empty, or is `"true"`/`"false"` with the
Environment's `conditionMet` present as that boolean. -/
def specEdgeMatches (vars : Env) (currentNodeID : String) (e : Edge) : Bool :=
  e.source == currentNodeID &&
    (e.sourceHandle == "" ||
      (e.sourceHandle == "true" && asBool (lookupVar vars "conditionMet") == some true) ||
      (e.sourceHandle == "false" && asBool (lookupVar vars "conditionMet") == some false))

/-- Spec-side edge resolution: the first matching edge in declared order
wins; `none` means there is no next node. -/
def specResolveNext (edges : List Edge) (currentNodeID : String) (vars : Env) :
    Option String :=
  (edges.find? (specEdgeMatches vars currentNodeID)).map Edge.target

/-- C2: `findNextNodeID` returns the target of the first edge in
declared order whose source is the current node id and which matches —
empty branch tag matches unconditionally, `"true"`/`"false"` only when
`conditionMet` is a present boolean of that value — and the empty string
(no next node) when no edge matches. -/
theorem C2_edge_resolution_spec (edges : List Edge) (currentNodeID : String)
    (vars : Env) :
    findNextNodeID edges currentNodeID vars =
      (specResolveNext edges currentNodeID vars).getD "" := by
  induction edges with
  | nil => rfl
  | cons e rest ih =>
    by_cases hs : e.source = currentNodeID
    · by_cases hh : e.sourceHandle = ""
      · simp [findNextNodeID, specResolveNext, List.find?_cons, specEdgeMatches, hs, hh]
      · cases hcm : asBool (lookupVar vars "conditionMet") with
        | none =>
          simp [findNextNodeID, specResolveNext, List.find?_cons, specEdgeMatches,
                hs, hh, hcm, ih]
        | some b =>
          by_cases ht : e.sourceHandle = "true"
          · cases b <;>
              simp [findNextNodeID, specResolveNext, List.find?_cons, specEdgeMatches,
                    hs, hh, hcm, ht, ih]
          · by_cases hf : e.sourceHandle = "false"
            · cases b <;>
                simp [findNextNodeID, specResolveNext, List.find?_cons, specEdgeMatches,
                      hs, hh, hcm, ht, hf, ih]
            · simp [findNextNodeID, specResolveNext, List.find?_cons, specEdgeMatches,
                    hs, hh, hcm, ht, hf, ih]
    · simp [findNextNodeID, specResolveNext, List.find?_cons, specEdgeMatches, hs, ih]

/-! ### Claim C10: edges with an unrecognized branch tag are skipped -/

/-- C10: an edge whose branch tag is a non-empty string other than
`"true"` or `"false"` is never selected by edge resolution — whatever the
state of `conditionMet` — and the scan continues with the remaining
edges, exactly as if the edge were not present (with no other edges it
yields `""`, silently ending the walk). -/
theorem C10_unrecognized_tag_skipped (pre post : List Edge) (e : Edge)
    (currentNodeID : String) (vars : Env)
    (h1 : e.sourceHandle ≠ "") (h2 : e.sourceHandle ≠ "true")
    (h3 : e.sourceHandle ≠ "false") :
    findNextNodeID (pre ++ e :: post) currentNodeID vars =
      findNextNodeID (pre ++ post) currentNodeID vars := by
  induction pre with
  | nil =>
    simp only [List.nil_append]
    by_cases hs : e.source = currentNodeID
    · cases hcm : asBool (lookupVar vars "conditionMet") with
      | none => simp [findNextNodeID, hs, h1, hcm]
      | some b => simp [findNextNodeID, hs, h1, h2, h3, hcm]
    · simp [findNextNodeID, hs]
  | cons f rest ih =>
    simp only [List.cons_append]
    by_cases hs : f.source = currentNodeID
    · by_cases hh : f.sourceHandle = ""
      · simp [findNextNodeID, hs, hh]
      · cases hcm : asBool (lookupVar vars "conditionMet") with
        | none => simpa [findNextNodeID, hs, hh, hcm] using ih
        | some b =>
          by_cases hcond : ((f.sourceHandle = "true" && b) ||
              (f.sourceHandle = "false" && !b) : Bool)
          · simp [findNextNodeID, hs, hh, hcm, hcond]
          · simpa [findNextNodeID, hs, hh, hcm, hcond] using ih
    · simpa [findNextNodeID, hs] using ih

/-! ### Concrete fixtures used by witnesses and counterexamples -/

/-- A lookup collaborator stub that always fails (never reached by the
graphs below). -/
def stubFailLookup : Lookup := fun _ _ => Except.error "no network"

/-- A lookup collaborator stub returning a fixed reading. -/
def stubLookup20 : Lookup := fun _ _ => Except.ok 20

/-- A fixed clock. -/
def clock0 : Clock := { rfc3339 := "2026-01-01T00:00:00Z", compact := "20260101000000" }

/-- A `start` node. -/
def nStart : Node :=
  { id := "s1", type := "start",
    data := { label := "Start", description := "", metadata := [] } }

/-- A `condition` node (its behavior reads only the variables). -/
def nCond : Node :=
  { id := "c1", type := "condition",
    data := { label := "Check", description := "", metadata := [] } }

/-- An `end` node. -/
def nEnd : Node :=
  { id := "e1", type := "end",
    data := { label := "End", description := "", metadata := [] } }

/-- start → condition. -/
def wf0 : Workflow :=
  { definition :=
    { id := "w0", nodes := [nStart, nCond],
      edges := [{ source := "s1", target := "c1", sourceHandle := "" }] } }

/-- Inputs for the condition run: a temperature above the threshold. -/
def inputs0 : Env :=
  [("temperature", Value.vnum 30), ("threshold", Value.vnum 25)]

/-- The response produced by running `wf0` on `inputs0`. -/
def resp0 : ExecutionResponse :=
  { executedAt := "2026-01-01T00:00:00Z", status := "completed",
    steps :=
      [{ nodeId := "s1", type := "start", label := "Start", description := "",
         status := "completed", output := none, error := "" },
       { nodeId := "c1", type := "condition", label := "Check", description := "",
         status := "completed",
         output := some
           [("conditionMet", Value.vbool true),
            ("threshold", Value.vnum 25),
            ("operator", Value.vstr "greater_than"),
            ("actualValue", Value.vnum 30),
            ("message", Value.vstr
              "Temperature 30.0°C greater_than 25.0°C - condition met")],
         error := "" }] }

/-- The final state of the caller's inputs map after running `wf0` on
`inputs0`: the condition behavior's write is visible. -/
def envFinal0 : Env :=
  [("temperature", Value.vnum 30), ("threshold", Value.vnum 25),
   ("conditionMet", Value.vbool true)]

/-- Witness for C1 at a concrete two-node run. -/
theorem C1_status_iff_trace_witness :
    (∃ n ∈ wf0.definition.nodes, n.type = "start") ∧
    Execute stubFailLookup clock0 5 wf0 inputs0 = some (resp0, envFinal0) ∧
    ((resp0.status = "completed" ↔ ∀ s ∈ resp0.steps, s.status = "completed") ∧
      ∀ s ∈ resp0.steps.dropLast, s.status = "completed") :=
  ⟨⟨nStart, by simp [wf0], rfl⟩, rfl,
    C1_status_iff_trace stubFailLookup clock0 5 wf0 inputs0 resp0 envFinal0
      ⟨nStart, by simp [wf0], rfl⟩ rfl⟩

/-- A graph with no start node. -/
def wfNoStart : Workflow :=
  { definition := { id := "w5", nodes := [nEnd], edges := [] } }

/-- Witness for C5 at a concrete start-less graph. -/
theorem C5_no_start_node_witness :
    (∀ n ∈ wfNoStart.definition.nodes, n.type ≠ "start") ∧
    Execute stubFailLookup clock0 3 wfNoStart [] =
      some ({ executedAt := clock0.rfc3339, status := "failed",
              steps := [{ nodeId := "system", type := "system",
                          label := "System Error", description := "",
                          status := "failed", output := none,
                          error := "No start node found in workflow" }] },
            []) :=
  ⟨by decide,
   C5_no_start_node stubFailLookup clock0 3 wfNoStart [] (by decide)⟩

/-- A graph whose only edge points at a node id that does not exist. -/
def wfBroken : Workflow :=
  { definition :=
    { id := "w9", nodes := [nStart],
      edges := [{ source := "s1", target := "ghost", sourceHandle := "" }] } }

/-- Witness for C9 at a concrete broken-edge run. -/
theorem C9_broken_edge_completes_witness :
    ((runNode stubFailLookup clock0 nStart []).1.status ≠ "failed") ∧
    (findNextNodeID wfBroken.definition.edges nStart.id
        (runNode stubFailLookup clock0 nStart []).2 ≠ "") ∧
    (nodeMapLookup wfBroken.definition.nodes
        (findNextNodeID wfBroken.definition.edges nStart.id
          (runNode stubFailLookup clock0 nStart []).2) = none) ∧
    execLoop stubFailLookup clock0 wfBroken 3 nStart [] [] =
      some ({ executedAt := clock0.rfc3339, status := "completed",
              steps := [] ++ [(runNode stubFailLookup clock0 nStart []).1] },
            (runNode stubFailLookup clock0 nStart []).2) :=
  ⟨by decide, by decide, rfl,
   C9_broken_edge_completes stubFailLookup clock0 wfBroken 2 nStart [] []
     (by decide) (by decide) rfl⟩

/-- An edge with an unrecognized branch tag. -/
def eMaybe : Edge := { source := "a", target := "b", sourceHandle := "maybe" }

/-- Witness for C10 at a concrete unrecognized-tag edge. -/
theorem C10_unrecognized_tag_skipped_witness :
    (eMaybe.sourceHandle ≠ "") ∧ (eMaybe.sourceHandle ≠ "true") ∧
    (eMaybe.sourceHandle ≠ "false") ∧
    findNextNodeID ([] ++ eMaybe :: []) "a"
        [("conditionMet", Value.vbool true)] =
      findNextNodeID ([] ++ []) "a" [("conditionMet", Value.vbool true)] :=
  ⟨by decide, by decide, by decide,
   C10_unrecognized_tag_skipped [] [] eMaybe "a"
     [("conditionMet", Value.vbool true)] (by decide) (by decide) (by decide)⟩

/-! ### Claim C6: the condition behavior -/

/-- C6: whenever the Environment's `temperature` is a float and its
`threshold` is a float or an int (coerced), the condition behavior
succeeds and writes `conditionMet` into the Environment equal to the
operator (read from `operator`, defaulting to `greater_than` when absent
or unrecognized — the default branch of `applyOp`) applied to
(temperature, threshold); it fails exactly when `temperature` is missing
or non-float, or `threshold` is missing and not integer-coercible; and an
int-typed threshold behaves identically (same output, same `conditionMet`
write) to the equal float. -/
theorem C6_condition_behavior (vars : Env) :
    (∀ t th, asNum (lookupVar vars "temperature") = some t →
        coerceThreshold (lookupVar vars "threshold") = some th →
        ∃ out, processConditionNode vars =
          Except.ok (out, setVar vars "conditionMet"
            (Value.vbool (applyOp (opOf vars) t th)))) ∧
    ((∃ e, processConditionNode vars = Except.error e) ↔
      (asNum (lookupVar vars "temperature") = none ∨
        coerceThreshold (lookupVar vars "threshold") = none)) ∧
    (∀ n : Int,
      (processConditionNode (setVar vars "threshold" (Value.vint n))).map Prod.fst =
        (processConditionNode (setVar vars "threshold" (Value.vnum (n : Rat)))).map
          Prod.fst ∧
      (processConditionNode (setVar vars "threshold" (Value.vint n))).map
          (fun p => lookupVar p.2 "conditionMet") =
        (processConditionNode (setVar vars "threshold" (Value.vnum (n : Rat)))).map
          (fun p => lookupVar p.2 "conditionMet")) := by
  refine ⟨?_, ?_, ?_⟩
  · intro t th ht hth
    simp only [processConditionNode, ht, hth]
    exact ⟨_, rfl⟩
  · constructor
    · rintro ⟨e, he⟩
      by_contra hcon
      push_neg at hcon
      obtain ⟨h1, h2⟩ := hcon
      obtain ⟨t, ht⟩ := Option.ne_none_iff_exists'.mp h1
      obtain ⟨th, hth⟩ := Option.ne_none_iff_exists'.mp h2
      simp [processConditionNode, ht, hth] at he
    · rintro (h | h)
      · exact ⟨"temperature not found in variables",
          by simp [processConditionNode, h]⟩
      · cases ht : asNum (lookupVar vars "temperature") with
        | none => exact ⟨"temperature not found in variables",
            by simp [processConditionNode, ht]⟩
        | some t => exact ⟨"threshold not found in variables",
            by simp [processConditionNode, ht, h]⟩
  · intro n
    have htemp : ∀ x, lookupVar (setVar vars "threshold" x) "temperature" =
        lookupVar vars "temperature" := fun x => by rw [lookupVar_setVar]; simp
    have hop : ∀ x, lookupVar (setVar vars "threshold" x) "operator" =
        lookupVar vars "operator" := fun x => by rw [lookupVar_setVar]; simp
    have hth : ∀ x, lookupVar (setVar vars "threshold" x) "threshold" = some x :=
      fun x => by rw [lookupVar_setVar]; simp
    have hc1 : coerceThreshold (some (Value.vint n)) = some ((n : Rat)) := rfl
    have hc2 : coerceThreshold (some (Value.vnum (n : Rat))) = some ((n : Rat)) := rfl
    cases ht : asNum (lookupVar vars "temperature") with
    | none =>
      constructor <;> simp [processConditionNode, htemp, ht]
    | some t =>
      constructor <;>
        simp [processConditionNode, htemp, hop, hth, ht, hc1, hc2, opOf,
              lookupVar_setVar, Except.map]

/-- Inputs for the C6 witness. -/
def varsCond : Env :=
  [("temperature", Value.vnum 30), ("threshold", Value.vnum 25),
   ("operator", Value.vstr "greater_than")]

/-- Witness for C6 at a concrete environment. -/
theorem C6_condition_behavior_witness :
    asNum (lookupVar varsCond "temperature") = some 30 ∧
    coerceThreshold (lookupVar varsCond "threshold") = some 25 ∧
    ∃ out, processConditionNode varsCond =
      Except.ok (out, setVar varsCond "conditionMet"
        (Value.vbool (applyOp (opOf varsCond) 30 25))) :=
  ⟨rfl, rfl, (C6_condition_behavior varsCond).1 30 25 rfl rfl⟩

/-! ### Claim C7: the email behavior -/

theorem append_msg_ne_empty (s : String) : ("msg_" ++ s) ≠ "" := by
  intro h
  have h2 : ("msg_" ++ s).length = ("" : String).length := congrArg String.length h
  rw [String.length_append, show ("" : String).length = 0 from rfl,
      show ("msg_" : String).length = 4 from rfl] at h2
  omega

/-- C7: when `conditionMet` is absent (or not a boolean) or `false`, the
email behavior succeeds with `{emailSent: false, message: "Condition not
met, no email sent"}` regardless of any other variables; when
`conditionMet` is `true` it fails exactly when `city`, `temperature` or
`email` is missing (as a value of the required dynamic type), and
otherwise succeeds with an output whose `emailSent` is `true` and whose
`messageId` is a non-empty string. -/
theorem C7_email_behavior (clock : Clock) (vars : Env) :
    (asBool (lookupVar vars "conditionMet") ≠ some true →
      processEmailNode clock vars =
        Except.ok [("emailSent", Value.vbool false),
                   ("message", Value.vstr "Condition not met, no email sent")]) ∧
    (asBool (lookupVar vars "conditionMet") = some true →
      ((∃ e, processEmailNode clock vars = Except.error e) ↔
        (asStr (lookupVar vars "city") = none ∨
          asNum (lookupVar vars "temperature") = none ∨
          asStr (lookupVar vars "email") = none)) ∧
      (∀ c t em, asStr (lookupVar vars "city") = some c →
        asNum (lookupVar vars "temperature") = some t →
        asStr (lookupVar vars "email") = some em →
        ∃ out, processEmailNode clock vars = Except.ok out ∧
          lookupVar out "emailSent" = some (Value.vbool true) ∧
          ∃ mid, lookupVar out "messageId" = some (Value.vstr mid) ∧ mid ≠ "")) := by
  constructor
  · intro hne
    cases hcm : asBool (lookupVar vars "conditionMet") with
    | none => simp [processEmailNode, hcm]
    | some b =>
      cases b with
      | false => simp [processEmailNode, hcm]
      | true => exact absurd hcm hne
  · intro hcm
    constructor
    · constructor
      · rintro ⟨e, he⟩
        by_contra hcon
        push_neg at hcon
        obtain ⟨h1, h2, h3⟩ := hcon
        obtain ⟨c, hc⟩ := Option.ne_none_iff_exists'.mp h1
        obtain ⟨t, htp⟩ := Option.ne_none_iff_exists'.mp h2
        obtain ⟨em, he2⟩ := Option.ne_none_iff_exists'.mp h3
        simp [processEmailNode, hcm, hc, htp, he2] at he
      · rintro (h | h | h)
        · exact ⟨"city not found in variables",
            by simp [processEmailNode, hcm, h]⟩
        · cases hc : asStr (lookupVar vars "city") with
          | none => exact ⟨"city not found in variables",
              by simp [processEmailNode, hcm, hc]⟩
          | some c => exact ⟨"temperature not found in variables",
              by simp [processEmailNode, hcm, hc, h]⟩
        · cases hc : asStr (lookupVar vars "city") with
          | none => exact ⟨"city not found in variables",
              by simp [processEmailNode, hcm, hc]⟩
          | some c =>
            cases htp : asNum (lookupVar vars "temperature") with
            | none => exact ⟨"temperature not found in variables",
                by simp [processEmailNode, hcm, hc, htp]⟩
            | some t => exact ⟨"email not found in variables",
                by simp [processEmailNode, hcm, hc, htp, h]⟩
    · intro c t em hc htp hem
      have hout : processEmailNode clock vars =
          Except.ok
            [("emailDraft", Value.vmap
               [("to", Value.vstr em),
                ("from", Value.vstr "weather-alerts@example.com"),
                ("subject", Value.vstr "Weather Alert"),
                ("body", Value.vstr ("Weather alert for " ++ c ++
                   "! Temperature is " ++ fmt1 t ++ "°C!")),
                ("timestamp", Value.vstr clock.rfc3339)]),
             ("deliveryStatus", Value.vstr "sent"),
             ("messageId", Value.vstr ("msg_" ++ clock.compact)),
             ("emailSent", Value.vbool true)] := by
        simp only [processEmailNode, hcm, hc, htp, hem]
      exact ⟨_, hout, by simp [lookupVar], "msg_" ++ clock.compact,
        by simp [lookupVar], append_msg_ne_empty _⟩

/-- Inputs for the C7 witness. -/
def varsEmail : Env :=
  [("conditionMet", Value.vbool true), ("city", Value.vstr "Sydney"),
   ("temperature", Value.vnum 30), ("email", Value.vstr "jane@example.com")]

/-- Witness for C7 at a concrete environment with the condition met. -/
theorem C7_email_behavior_witness :
    asBool (lookupVar varsEmail "conditionMet") = some true ∧
    ∃ out, processEmailNode clock0 varsEmail = Except.ok out ∧
      lookupVar out "emailSent" = some (Value.vbool true) ∧
      ∃ mid, lookupVar out "messageId" = some (Value.vstr mid) ∧ mid ≠ "" :=
  ⟨rfl, ((C7_email_behavior clock0 varsEmail).2 rfl).2 "Sydney" 30
    "jane@example.com" rfl rfl rfl⟩

/-! ### Claim C8: the integration behavior -/

/-- C8: the integration behavior fails exactly when the `city` variable
is missing (as a string), or the node's `options` metadata resolves the
city to the sentinel coordinates (0,0), or the lookup collaborator call
errors (covering timeouts); on success it writes the returned reading
into the Environment under `temperature` and records
`{temperature, location}` as the step output. -/
theorem C8_integration_behavior (lk : Lookup) (node : Node) (vars : Env) :
    ((∃ e, processIntegrationNode lk node vars = Except.error e) ↔
      (asStr (lookupVar vars "city") = none ∨
        ∃ city, asStr (lookupVar vars "city") = some city ∧
          (getCityCoordinates node city = (0, 0) ∨
            ∃ err, lk (getCityCoordinates node city).1
                (getCityCoordinates node city).2 = Except.error err))) ∧
    (∀ city temp, asStr (lookupVar vars "city") = some city →
      getCityCoordinates node city ≠ (0, 0) →
      lk (getCityCoordinates node city).1 (getCityCoordinates node city).2 =
        Except.ok temp →
      processIntegrationNode lk node vars =
        Except.ok
          ([("temperature", Value.vnum temp), ("location", Value.vstr city)],
           setVar vars "temperature" (Value.vnum temp))) := by
  constructor
  · constructor
    · rintro ⟨e, he⟩
      cases hc : asStr (lookupVar vars "city") with
      | none => exact Or.inl rfl
      | some c =>
        refine Or.inr ⟨c, rfl, ?_⟩
        by_cases hz : getCityCoordinates node c = (0, 0)
        · exact Or.inl hz
        · refine Or.inr ?_
          cases hlk : lk (getCityCoordinates node c).1 (getCityCoordinates node c).2 with
          | error err => exact ⟨err, rfl⟩
          | ok temp =>
            have hzc : ¬((getCityCoordinates node c).1 = 0 ∧
                (getCityCoordinates node c).2 = 0) :=
              fun hp => hz (Prod.ext hp.1 hp.2)
            simp [processIntegrationNode, hc, hzc, hlk] at he
    · rintro (h | ⟨c, hc, h⟩)
      · exact ⟨"city not found in variables", by simp [processIntegrationNode, h]⟩
      · rcases h with hz | ⟨err, herr⟩
        · refine ⟨"coordinates not found for city: " ++ c, ?_⟩
          have hzc : (getCityCoordinates node c).1 = 0 ∧
              (getCityCoordinates node c).2 = 0 :=
            ⟨congrArg Prod.fst hz, congrArg Prod.snd hz⟩
          simp [processIntegrationNode, hc, hzc]
        · by_cases hz : getCityCoordinates node c = (0, 0)
          · refine ⟨"coordinates not found for city: " ++ c, ?_⟩
            have hzc : (getCityCoordinates node c).1 = 0 ∧
                (getCityCoordinates node c).2 = 0 :=
              ⟨congrArg Prod.fst hz, congrArg Prod.snd hz⟩
            simp [processIntegrationNode, hc, hzc]
          · refine ⟨"failed to fetch weather data: " ++ err, ?_⟩
            have hzc : ¬((getCityCoordinates node c).1 = 0 ∧
                (getCityCoordinates node c).2 = 0) :=
              fun hp => hz (Prod.ext hp.1 hp.2)
            simp [processIntegrationNode, hc, hzc, herr]
  · intro c temp hc hz hlk
    have hzc : ¬((getCityCoordinates node c).1 = 0 ∧
        (getCityCoordinates node c).2 = 0) :=
      fun hp => hz (Prod.ext hp.1 hp.2)
    simp [processIntegrationNode, hc, hzc, hlk]

/-- An integration node with one city option. -/
def nodeIntegration : Node :=
  { id := "i1", type := "integration",
    data :=
      { label := "Weather", description := "",
        metadata := [("options", Value.vlist
          [Value.vmap [("city", Value.vstr "Sydney"),
                       ("lat", Value.vnum 1), ("lon", Value.vnum 2)]])] } }

/-- Inputs for the C8 witness. -/
def varsCity : Env := [("city", Value.vstr "Sydney")]

/-- Witness for C8 at a concrete node, environment and lookup stub. -/
theorem C8_integration_behavior_witness :
    asStr (lookupVar varsCity "city") = some "Sydney" ∧
    getCityCoordinates nodeIntegration "Sydney" ≠ (0, 0) ∧
    stubLookup20 (getCityCoordinates nodeIntegration "Sydney").1
        (getCityCoordinates nodeIntegration "Sydney").2 = Except.ok 20 ∧
    processIntegrationNode stubLookup20 nodeIntegration varsCity =
      Except.ok
        ([("temperature", Value.vnum 20), ("location", Value.vstr "Sydney")],
         setVar varsCity "temperature" (Value.vnum 20)) :=
  ⟨rfl,
   by rw [show getCityCoordinates nodeIntegration "Sydney" = (1, 2) from rfl]; decide,
   rfl,
   (C8_integration_behavior stubLookup20 nodeIntegration varsCity).2 "Sydney" 20
     rfl
     (by rw [show getCityCoordinates nodeIntegration "Sydney" = (1, 2) from rfl]; decide)
     rfl⟩

/-! ### Claim C3: `Execute` mutates the caller-supplied inputs map

The Go executor passes the caller's `inputs` map directly into every node
behavior (`e.processConditionNode(inputs, &step)` etc.), so behavior
writes such as `inputs["conditionMet"] = ...` are visible to the caller
after `Execute` returns: no private copy is made. -/

/-- C3 counterexample: running the start→condition graph on inputs
`{temperature: 30, threshold: 25}` leaves `conditionMet = true` in the
caller's map, which was absent before the call, so the caller's map does
not equal its pre-call value — refuting the claim that `Execute` seeds
the Environment with a private copy and never mutates the caller's map. -/
theorem C3_mutation_counterexample :
    (Execute stubFailLookup clock0 5 wf0 inputs0).map
        (fun p => lookupVar p.2 "conditionMet") =
      some (some (Value.vbool true)) ∧
    lookupVar inputs0 "conditionMet" = none ∧
    (Execute stubFailLookup clock0 5 wf0 inputs0).map Prod.snd ≠ some inputs0 := by
  refine ⟨rfl, rfl, ?_⟩
  have hA : Execute stubFailLookup clock0 5 wf0 inputs0 = some (resp0, envFinal0) := rfl
  rw [hA]
  intro h
  simp only [Option.map_some', Option.some.injEq] at h
  have h3 : lookupVar envFinal0 "conditionMet" = lookupVar inputs0 "conditionMet" :=
    congrArg (fun e => lookupVar e "conditionMet") h
  exact Option.noConfusion h3

/-- `conditionMet` is present in the variables as a boolean. -/
def hasConditionMet (vars : Env) : Prop :=
  ∃ b, lookupVar vars "conditionMet" = some (Value.vbool b)

theorem processIntegrationNode_ok_env (lk : Lookup) (node : Node) (vars : Env)
    (r : List (String × Value) × Env)
    (h : processIntegrationNode lk node vars = Except.ok r) :
    ∃ t, r.2 = setVar vars "temperature" (Value.vnum t) := by
  simp only [processIntegrationNode] at h
  cases hc : asStr (lookupVar vars "city") with
  | none => simp [hc] at h
  | some c =>
    simp only [hc] at h
    by_cases hz : ((getCityCoordinates node c).1 = 0 ∧ (getCityCoordinates node c).2 = 0)
    · rw [if_pos hz] at h; exact absurd h (by simp)
    · rw [if_neg hz] at h
      cases hlk : lk (getCityCoordinates node c).1 (getCityCoordinates node c).2 with
      | error e => simp [hlk] at h
      | ok t =>
        simp only [hlk] at h
        exact ⟨t, (congrArg Prod.snd (Except.ok.inj h)).symm⟩

theorem processConditionNode_ok_env (vars : Env)
    (r : List (String × Value) × Env)
    (h : processConditionNode vars = Except.ok r) :
    ∃ b, r.2 = setVar vars "conditionMet" (Value.vbool b) := by
  simp only [processConditionNode] at h
  cases ht : asNum (lookupVar vars "temperature") with
  | none => simp [ht] at h
  | some t =>
    simp only [ht] at h
    cases hth : coerceThreshold (lookupVar vars "threshold") with
    | none => simp [hth] at h
    | some th =>
      simp only [hth] at h
      exact ⟨_, (congrArg Prod.snd (Except.ok.inj h)).symm⟩

theorem runNode_type (lk : Lookup) (clock : Clock) (cur : Node) (vars : Env) :
    (runNode lk clock cur vars).1.type = cur.type := by
  simp only [runNode]
  split_ifs <;>
    first
      | rfl
      | (cases processFormNode cur vars <;> rfl)
      | (cases processIntegrationNode lk cur vars <;> rfl)
      | (cases processConditionNode vars <;> rfl)
      | (cases processEmailNode clock vars <;> rfl)

theorem runNode_hasConditionMet_mono (lk : Lookup) (clock : Clock) (cur : Node)
    (vars : Env) (h : hasConditionMet vars) :
    hasConditionMet (runNode lk clock cur vars).2 := by
  obtain ⟨b, hb⟩ := h
  simp only [runNode]
  split_ifs
  · exact ⟨b, hb⟩
  · cases processFormNode cur vars <;> exact ⟨b, hb⟩
  · cases hir : processIntegrationNode lk cur vars with
    | error e => exact ⟨b, hb⟩
    | ok r =>
      obtain ⟨t, ht⟩ := processIntegrationNode_ok_env lk cur vars r hir
      exact ⟨b, by simp [ht, lookupVar_setVar, hb]⟩
  · cases hcr : processConditionNode vars with
    | error e => exact ⟨b, hb⟩
    | ok r =>
      obtain ⟨b2, hb2⟩ := processConditionNode_ok_env vars r hcr
      exact ⟨b2, by simp [hb2, lookupVar_setVar]⟩
  · cases processEmailNode clock vars <;> exact ⟨b, hb⟩
  · exact ⟨b, hb⟩
  · exact ⟨b, hb⟩

theorem runNode_condition_completed_sets (lk : Lookup) (clock : Clock) (cur : Node)
    (vars : Env) (htype : cur.type = "condition")
    (hstatus : (runNode lk clock cur vars).1.status ≠ "failed") :
    hasConditionMet (runNode lk clock cur vars).2 := by
  simp only [runNode, htype] at hstatus ⊢
  simp only [show ("condition" = "start") = False from by simp,
             show ("condition" = "form") = False from by simp,
             show ("condition" = "integration") = False from by simp,
             show ("condition" = "condition") = True from by simp,
             if_false, if_true, iff_true] at hstatus ⊢
  cases hcr : processConditionNode vars with
  | error e =>
    simp [hcr] at hstatus
  | ok r =>
    obtain ⟨b2, hb2⟩ := processConditionNode_ok_env vars r hcr
    simp only [hcr]
    exact ⟨b2, by simp [hb2, lookupVar_setVar]⟩

theorem execLoop_conditionMet (lk : Lookup) (clock : Clock) (wf : Workflow) :
    ∀ (fuel : Nat) (cur : Node) (vars : Env) (steps : List ExecutionStep)
      (resp : ExecutionResponse) (env : Env),
      execLoop lk clock wf fuel cur vars steps = some (resp, env) →
      ((∃ s ∈ steps, s.type = "condition" ∧ s.status = "completed") →
        hasConditionMet vars) →
      (∃ s ∈ resp.steps, s.type = "condition" ∧ s.status = "completed") →
      hasConditionMet env := by
  intro fuel
  induction fuel with
  | zero =>
    intro cur vars steps resp env h _ _
    exact absurd h (by simp [execLoop])
  | succ fuel ih =>
    intro cur vars steps resp env h hinv hex
    simp only [execLoop] at h
    have hpres : (∃ s ∈ steps ++ [(runNode lk clock cur vars).1],
        s.type = "condition" ∧ s.status = "completed") →
        hasConditionMet (runNode lk clock cur vars).2 := by
      rintro ⟨s, hs, hty, hst⟩
      rcases List.mem_append.mp hs with hs | hs
      · exact runNode_hasConditionMet_mono lk clock cur vars (hinv ⟨s, hs, hty, hst⟩)
      · rw [List.mem_singleton] at hs
        subst hs
        have htype : cur.type = "condition" := by
          rw [← runNode_type lk clock cur vars]; exact hty
        exact runNode_condition_completed_sets lk clock cur vars htype
          (by rw [hst]; simp)
    by_cases hf : (runNode lk clock cur vars).1.status = "failed"
    · rw [if_pos hf] at h
      simp only [Option.some.injEq, Prod.mk.injEq] at h
      obtain ⟨hresp, henv⟩ := h
      subst hresp
      subst henv
      exact hpres hex
    · rw [if_neg hf] at h
      by_cases hn : findNextNodeID wf.definition.edges cur.id
          (runNode lk clock cur vars).2 = ""
      · rw [if_pos hn] at h
        simp only [Option.some.injEq, Prod.mk.injEq] at h
        obtain ⟨hresp, henv⟩ := h
        subst hresp
        subst henv
        exact hpres hex
      · rw [if_neg hn] at h
        cases hlk : nodeMapLookup wf.definition.nodes
            (findNextNodeID wf.definition.edges cur.id (runNode lk clock cur vars).2) with
        | none =>
          rw [hlk] at h
          simp only [Option.some.injEq, Prod.mk.injEq] at h
          obtain ⟨hresp, henv⟩ := h
          subst hresp
          subst henv
          exact hpres hex
        | some next =>
          rw [hlk] at h
          exact ih next _ _ resp env h hpres hex

/-- C3 amended: `Execute` uses the caller-supplied map itself as the
Environment (no private copy), so node-behavior writes persist after the
call: whenever the returned trace contains a completed `condition` step,
the caller's map afterwards contains `conditionMet` as a boolean — in
particular the map may differ from its pre-call value. -/
theorem C3_amended_env_write_persists (lk : Lookup) (clock : Clock) (fuel : Nat)
    (wf : Workflow) (inputs : Env) (resp : ExecutionResponse) (env : Env)
    (hrun : Execute lk clock fuel wf inputs = some (resp, env))
    (hstep : ∃ s ∈ resp.steps, s.type = "condition" ∧ s.status = "completed") :
    ∃ b, lookupVar env "conditionMet" = some (Value.vbool b) := by
  rw [Execute] at hrun
  cases hfind : findNodeByType wf.definition.nodes "start" with
  | none =>
    rw [hfind] at hrun
    simp only [Option.some.injEq, Prod.mk.injEq] at hrun
    obtain ⟨hresp, henv⟩ := hrun
    subst hresp
    obtain ⟨s, hs, hty, _⟩ := hstep
    simp only [List.mem_singleton] at hs
    rw [hs] at hty
    exact absurd hty (by decide)
  | some start =>
    rw [hfind] at hrun
    exact execLoop_conditionMet lk clock wf fuel start inputs [] resp env hrun
      (by rintro ⟨s, hs, -⟩; simp at hs) hstep

/-- Witness for the amended C3 at the concrete start→condition run. -/
theorem C3_amended_env_write_persists_witness :
    Execute stubFailLookup clock0 5 wf0 inputs0 = some (resp0, envFinal0) ∧
    (∃ s ∈ resp0.steps, s.type = "condition" ∧ s.status = "completed") ∧
    ∃ b, lookupVar envFinal0 "conditionMet" = some (Value.vbool b) :=
  ⟨rfl,
   ⟨_, List.mem_cons_of_mem _ (List.mem_cons_self _ _), rfl, rfl⟩,
   C3_amended_env_write_persists stubFailLookup clock0 5 wf0 inputs0 resp0 envFinal0
     rfl ⟨_, List.mem_cons_of_mem _ (List.mem_cons_self _ _), rfl, rfl⟩⟩

/-! ### Claim C4: determinism up to the clock

The executor is a pure function of the graph, the inputs, the lookup
collaborator and the clock; the only clock-dependent content is the
response timestamp and, in a successful email step's output, the draft's
generation timestamp and the time-derived message id. -/

/-- Erase the time-derived fields of a step output: the `messageId`
entry, and the `timestamp` entry inside `emailDraft`. -/
def scrubOutput (out : List (String × Value)) : List (String × Value) :=
  out.filterMap (fun kv =>
    if kv.1 = "messageId" then none
    else if kv.1 = "emailDraft" then
      match kv.2 with
      | Value.vmap kvs =>
        some (kv.1, Value.vmap (kvs.filter (fun p => p.1 ≠ "timestamp")))
      | v => some (kv.1, v)
    else some kv)

/-- A step with its time-derived output fields erased. -/
def scrubStep (s : ExecutionStep) : ExecutionStep :=
  { s with output := s.output.map scrubOutput }

/-- The clock-independent content of an execution result: the overall
status, the steps with time-derived output fields erased, and the final
variables map (the response timestamp is dropped). -/
def execProj (p : ExecutionResponse × Env) : String × List ExecutionStep × Env :=
  (p.1.status, p.1.steps.map scrubStep, p.2)

theorem scrubStep_status (s : ExecutionStep) : (scrubStep s).status = s.status := rfl

theorem runNode_clock_eq (lk : Lookup) (c1 c2 : Clock) (cur : Node) (vars : Env) :
    scrubStep (runNode lk c1 cur vars).1 = scrubStep (runNode lk c2 cur vars).1 ∧
      (runNode lk c1 cur vars).2 = (runNode lk c2 cur vars).2 := by
  simp only [runNode]
  split_ifs
  · exact ⟨rfl, rfl⟩
  · cases processFormNode cur vars <;> exact ⟨rfl, rfl⟩
  · cases processIntegrationNode lk cur vars <;> exact ⟨rfl, rfl⟩
  · cases processConditionNode vars <;> exact ⟨rfl, rfl⟩
  · cases hcm : asBool (lookupVar vars "conditionMet") with
    | none => simp [processEmailNode, hcm]
    | some b =>
      cases b with
      | false => simp [processEmailNode, hcm]
      | true =>
        cases hc : asStr (lookupVar vars "city") with
        | none => simp [processEmailNode, hcm, hc]
        | some c =>
          cases htp : asNum (lookupVar vars "temperature") with
          | none => simp [processEmailNode, hcm, hc, htp]
          | some t =>
            cases hem : asStr (lookupVar vars "email") with
            | none => simp [processEmailNode, hcm, hc, htp, hem]
            | some em =>
              simp [processEmailNode, hcm, hc, htp, hem, scrubStep, scrubOutput]
  · exact ⟨rfl, rfl⟩
  · exact ⟨rfl, rfl⟩

theorem execLoop_clock_eq (lk : Lookup) (c1 c2 : Clock) (wf : Workflow) :
    ∀ (fuel : Nat) (cur : Node) (vars : Env)
      (steps1 steps2 : List ExecutionStep),
      steps1.map scrubStep = steps2.map scrubStep →
      (execLoop lk c1 wf fuel cur vars steps1).map execProj =
        (execLoop lk c2 wf fuel cur vars steps2).map execProj := by
  intro fuel
  induction fuel with
  | zero => intro cur vars steps1 steps2 _; rfl
  | succ fuel ih =>
    intro cur vars steps1 steps2 hsteps
    simp only [execLoop]
    obtain ⟨hstep, henv⟩ := runNode_clock_eq lk c1 c2 cur vars
    have hstat : (runNode lk c1 cur vars).1.status =
        (runNode lk c2 cur vars).1.status := by
      rw [← scrubStep_status ((runNode lk c1 cur vars).1),
          ← scrubStep_status ((runNode lk c2 cur vars).1)]
      exact congrArg ExecutionStep.status hstep
    have hmap : (steps1 ++ [(runNode lk c1 cur vars).1]).map scrubStep =
        (steps2 ++ [(runNode lk c2 cur vars).1]).map scrubStep := by
      simp [List.map_append, hsteps, hstep]
    by_cases hf : (runNode lk c1 cur vars).1.status = "failed"
    · have hf2 : (runNode lk c2 cur vars).1.status = "failed" := by
        rw [← hstat]; exact hf
      rw [if_pos hf, if_pos hf2]
      simp [execProj, hmap, henv]
    · have hf2 : ¬ (runNode lk c2 cur vars).1.status = "failed" := by
        rw [← hstat]; exact hf
      rw [if_neg hf, if_neg hf2, henv]
      by_cases hn : findNextNodeID wf.definition.edges cur.id
          (runNode lk c2 cur vars).2 = ""
      · rw [if_pos hn, if_pos hn]
        simp [execProj, hmap]
      · rw [if_neg hn, if_neg hn]
        cases hlk : nodeMapLookup wf.definition.nodes
            (findNextNodeID wf.definition.edges cur.id (runNode lk c2 cur vars).2) with
        | none =>
          simp only [hlk]
          simp [execProj, hmap]
        | some next =>
          simp only [hlk]
          exact ih next (runNode lk c2 cur vars).2 _ _ hmap

/-- C4 amended: two `Execute` calls with identical graph, inputs and
lookup collaborator produce results identical in overall status, final
variables map, and per-step node ids, types, labels, descriptions,
statuses, errors and outputs — except for the time-derived output fields
of a successful email step (the draft's generation timestamp and the
`messageId`), and the response timestamp, which follow the clock. -/
theorem C4_amended_clock_independence (lk : Lookup) (c1 c2 : Clock) (fuel : Nat)
    (wf : Workflow) (inputs : Env) :
    (Execute lk c1 fuel wf inputs).map execProj =
      (Execute lk c2 fuel wf inputs).map execProj := by
  simp only [Execute]
  cases hfind : findNodeByType wf.definition.nodes "start" with
  | none => simp [execProj]
  | some s => exact execLoop_clock_eq lk c1 c2 wf fuel s inputs [] [] rfl

/-- An `email` node. -/
def nEmail : Node :=
  { id := "m1", type := "email",
    data := { label := "Mail", description := "", metadata := [] } }

/-- start → email. -/
def wfEmail : Workflow :=
  { definition :=
    { id := "w4", nodes := [nStart, nEmail],
      edges := [{ source := "s1", target := "m1", sourceHandle := "" }] } }

/-- A later clock than `clock0`. -/
def clockB : Clock := { rfc3339 := "2026-01-02T00:00:00Z", compact := "20260102000000" }

/-- The response of the start→email run under `clock0`. -/
def respEmailA : ExecutionResponse :=
  { executedAt := "2026-01-01T00:00:00Z", status := "completed",
    steps :=
      [{ nodeId := "s1", type := "start", label := "Start", description := "",
         status := "completed", output := none, error := "" },
       { nodeId := "m1", type := "email", label := "Mail", description := "",
         status := "completed",
         output := some
           [("emailDraft", Value.vmap
              [("to", Value.vstr "jane@example.com"),
               ("from", Value.vstr "weather-alerts@example.com"),
               ("subject", Value.vstr "Weather Alert"),
               ("body", Value.vstr "Weather alert for Sydney! Temperature is 30.0°C!"),
               ("timestamp", Value.vstr "2026-01-01T00:00:00Z")]),
            ("deliveryStatus", Value.vstr "sent"),
            ("messageId", Value.vstr "msg_20260101000000"),
            ("emailSent", Value.vbool true)],
         error := "" }] }

/-- The response of the start→email run under `clockB`. -/
def respEmailB : ExecutionResponse :=
  { executedAt := "2026-01-02T00:00:00Z", status := "completed",
    steps :=
      [{ nodeId := "s1", type := "start", label := "Start", description := "",
         status := "completed", output := none, error := "" },
       { nodeId := "m1", type := "email", label := "Mail", description := "",
         status := "completed",
         output := some
           [("emailDraft", Value.vmap
              [("to", Value.vstr "jane@example.com"),
               ("from", Value.vstr "weather-alerts@example.com"),
               ("subject", Value.vstr "Weather Alert"),
               ("body", Value.vstr "Weather alert for Sydney! Temperature is 30.0°C!"),
               ("timestamp", Value.vstr "2026-01-02T00:00:00Z")]),
            ("deliveryStatus", Value.vstr "sent"),
            ("messageId", Value.vstr "msg_20260102000000"),
            ("emailSent", Value.vbool true)],
         error := "" }] }

/-- The `messageId` recorded in the output of a trace's last step. -/
def lastMessageId (steps : List ExecutionStep) : Option Value :=
  match steps.getLast? with
  | some s =>
    match s.output with
    | some out => lookupVar out "messageId"
    | none => none
  | none => none

/-- C4 counterexample: two runs of the start→email graph with identical
graph, inputs and lookup stub but different call times produce different
step sequences — the email step's output embeds the clock in the draft's
`timestamp` and in `messageId` ("msg_20260101000000" vs
"msg_20260102000000") — while the overall statuses agree.  This refutes
the claim that the step outputs are identical with only the response
timestamps differing. -/
theorem C4_timestamp_counterexample :
    Execute stubFailLookup clock0 5 wfEmail varsEmail = some (respEmailA, varsEmail) ∧
    Execute stubFailLookup clockB 5 wfEmail varsEmail = some (respEmailB, varsEmail) ∧
    (Execute stubFailLookup clock0 5 wfEmail varsEmail).map (fun p => p.1.steps) ≠
      (Execute stubFailLookup clockB 5 wfEmail varsEmail).map (fun p => p.1.steps) ∧
    (Execute stubFailLookup clock0 5 wfEmail varsEmail).map (fun p => p.1.status) =
      (Execute stubFailLookup clockB 5 wfEmail varsEmail).map (fun p => p.1.status) := by
  have hA : Execute stubFailLookup clock0 5 wfEmail varsEmail =
      some (respEmailA, varsEmail) := rfl
  have hB : Execute stubFailLookup clockB 5 wfEmail varsEmail =
      some (respEmailB, varsEmail) := rfl
  refine ⟨hA, hB, ?_, rfl⟩
  rw [hA, hB]
  intro h
  simp only [Option.map_some', Option.some.injEq] at h
  have h2 : lastMessageId respEmailA.steps = lastMessageId respEmailB.steps :=
    congrArg lastMessageId h
  have h3 : (some (Value.vstr "msg_20260101000000") : Option Value) =
      some (Value.vstr "msg_20260102000000") := h2
  injection h3 with h4
  injection h4 with h5
  exact absurd h5 (by decide)
